import Mathlib

/-!
# Verification of the `qint` fixed-point arithmetic engine

Shallow embedding of the `qint` library (`src/qint/qint.py`,
`src/qint/utils.py`, `src/qint/exceptions.py`).

A `QInt` stores an integer mantissa (`value`) together with a decimal
`precision`; the true value is `value / 10 ^ precision`.  Python integers are
unbounded, so both fields are embedded as `Int`.  Python `//` and `%` are
floored division and floored modulus, embedded as `Int.fdiv` and `Int.fmod`.

The Python operators dispatch dynamically on the type of the second operand
(`QInt`, `int`, `Fraction`, or anything else, e.g. `float`); this dynamic
dispatch is embedded as a sum type `Operand`.  Fallible operations return
`Except QIntError _`, with one `QIntError` constructor per exception class the
code can raise.

`qint.py` calls `ut.banker_division`, `ut.scale` and imports `QIntTypeError`,
but those three definitions are not present under `src/` (only their callers
are); they are modelled from the spec and marked as such below.
-/

/-- The error taxonomy.  `precisionError` embeds `QIntPrecisionError`
(defined in `src/qint/exceptions.py`, carrying the two precisions);
`typeError` embeds `QIntTypeError` (the spec's `InvalidOperand`, carrying the
operation name); `zeroDivisionError` embeds Python's `ZeroDivisionError`
(the spec's `DivisionByZero`); `unsupportedOperation` embeds the plain
`TypeError`s raised directly by the code (the spec's `UnsupportedOperation`),
carrying the message. -/
inductive QIntError where
  | precisionError (precision1 precision2 : Int)
  | typeError (operation : String)
  | zeroDivisionError
  | unsupportedOperation (msg : String)
deriving DecidableEq, Repr

/-- The `QInt` record: quantized value and precision
(`class QInt(NamedTuple)` in `src/qint/qint.py`). -/
structure QInt where
  value : Int
  precision : Int
deriving DecidableEq, Repr

namespace ut

/-- Modelled from the spec: `ut.banker_division` is called by
`QInt.__mul__` and `QInt.__truediv__` in `src/qint/qint.py` but is not defined
under `src/` (`src/qint/utils.py` does not contain it).  Spec §4.1
`bankersDivide`: `doubledNum = 2*numerator`, `doubledDenom = 2*denominator`,
`q = floor(doubledNum / doubledDenom)`, `r = |doubledNum mod doubledDenom|`
(floored division and modulus, `Int.fdiv`/`Int.fmod`); if `r` equals the
magnitude of the denominator the quotient is rounded to even, otherwise it is
rounded to `q` when `r` is below that magnitude and to `q + 1` otherwise.
`r` is an absolute value, so it is compared against the magnitude
`denom.natAbs`, the reading under which the algorithm agrees with the spec's
normative description ("integer division of `numerator/denominator` rounded
half-to-even") for every nonzero denominator.  This is the total rounding
core; the zero check lives in `banker_division` below. -/
def bankers_round (num denom : Int) : Int :=
  let doubledNum := 2 * num
  let doubledDenom := 2 * denom
  let q := doubledNum.fdiv doubledDenom
  let r := (doubledNum.fmod doubledDenom).natAbs
  if r = denom.natAbs then (if q % 2 = 0 then q else q + 1)
  else if r < denom.natAbs then q else q + 1

/-- Modelled from the spec: `bankersDivide` "fails with `DivisionByZero` when
`denominator == 0`", otherwise rounds half-to-even via `bankers_round`. -/
def banker_division (num denom : Int) : Except QIntError Int :=
  if denom = 0 then Except.error QIntError.zeroDivisionError
  else Except.ok (bankers_round num denom)

/-- Modelled from the spec: `ut.scale` is called by `QInt.scale` in
`src/qint/qint.py` but is not defined under `src/`.  Spec §4.1 `scale`: for
`precision_delta ≥ 0` multiply the mantissa by `10 ^ precision_delta` (exact);
for negative delta divide by `10 ^ |precision_delta|` with banker's rounding. -/
def scale (mantissa delta : Int) : Int :=
  if 0 ≤ delta then mantissa * 10 ^ delta.toNat
  else bankers_round mantissa (10 ^ (-delta).toNat)

end ut

/-- The runtime type of the second operand of a binary operation, for the
`isinstance` dispatch (`Scalar = int | Fraction` in `src/qint/qint.py`). -/
inductive PyType where
  | qintT
  | intT
  | fracT
  | floatT
  | otherT
deriving DecidableEq, Repr

/-- The second operand of a binary operation: a `QInt`, a Python `int`, a
`Fraction` (carried as numerator/denominator), a `float`, or a value of any
other type.  The payloads of `float` and `other` operands are never consulted
by the code paths embedded here (every such operand is rejected or ignored
before its value is read), so they are not carried. -/
inductive Operand where
  | qint (q : QInt)
  | int (n : Int)
  | frac (numerator denominator : Int)
  | float
  | other
deriving DecidableEq, Repr

/-- The runtime type of an operand. -/
def Operand.typeOf : Operand → PyType
  | Operand.qint _ => PyType.qintT
  | Operand.int _ => PyType.intT
  | Operand.frac _ _ => PyType.fracT
  | Operand.float => PyType.floatT
  | Operand.other => PyType.otherT

/-- Decidable equality of `Except` results, so that concrete runs of the
embedded operations can be checked by `decide`. -/
instance exceptDecidableEq {ε α : Type} [DecidableEq ε] [DecidableEq α] :
    DecidableEq (Except ε α) := fun x y =>
  match x, y with
  | Except.ok a, Except.ok b =>
      if h : a = b then isTrue (by rw [h]) else isFalse (by simp [h])
  | Except.error a, Except.error b =>
      if h : a = b then isTrue (by rw [h]) else isFalse (by simp [h])
  | Except.ok _, Except.error _ => isFalse (by simp)
  | Except.error _, Except.ok _ => isFalse (by simp)

/-- The `check_operand` decorator of `src/qint/qint.py`: the operand must be a
`QInt` (`type(self)`) or one of `validTypes`, otherwise the operation fails
with `QIntTypeError` carrying the operation name (`method.__name__`). -/
def checkOperand {α : Type} (validTypes : List PyType) (opName : String)
    (method : Operand → Except QIntError α) (other : Operand) :
    Except QIntError α :=
  if other.typeOf = PyType.qintT ∨ other.typeOf ∈ validTypes then
    method other
  else Except.error (QIntError.typeError opName)

/-- The `require_same_precision` decorator of `src/qint/qint.py`: when the
operand is a `QInt` with a different precision, fail with
`QIntPrecisionError(self.precision, other.precision)`; scalars pass through. -/
def requireSamePrecision {α : Type} (self : QInt)
    (method : Operand → Except QIntError α) (other : Operand) :
    Except QIntError α :=
  match other with
  | Operand.qint o =>
      if self.precision ≠ o.precision then
        Except.error (QIntError.precisionError self.precision o.precision)
      else method (Operand.qint o)
  | o => method o

/-- `QInt.scale`: return `self` unchanged when the target is unspecified
(`None`) or equals the current precision, else rescale via `ut.scale`. -/
def QInt.scale (self : QInt) (targ : Option Int) : QInt :=
  match targ with
  | none => self
  | some t =>
      if t = self.precision then self
      else ⟨ut.scale self.value (t - self.precision), t⟩

/-- `QInt.__add__`: `@check_operand((int,)) @require_same_precision`; mantissas
added for a `QInt` operand, scalar added to the mantissa for an `int` operand.
The final catch-all arm is unreachable (the decorator admits only `QInt` and
`int`). -/
def QInt.add (self : QInt) (other : Operand) : Except QIntError QInt :=
  checkOperand [PyType.intT] "__add__"
    (requireSamePrecision self (fun o =>
      match o with
      | Operand.qint b => Except.ok ⟨self.value + b.value, self.precision⟩
      | Operand.int n => Except.ok ⟨self.value + n, self.precision⟩
      | _ => Except.error (QIntError.typeError "__add__"))) other

/-- `QInt.__sub__`: as `__add__`, subtracting. -/
def QInt.sub (self : QInt) (other : Operand) : Except QIntError QInt :=
  checkOperand [PyType.intT] "__sub__"
    (requireSamePrecision self (fun o =>
      match o with
      | Operand.qint b => Except.ok ⟨self.value - b.value, self.precision⟩
      | Operand.int n => Except.ok ⟨self.value - n, self.precision⟩
      | _ => Except.error (QIntError.typeError "__sub__"))) other

/-- `QInt.__mul__`: `@check_operand((Scalar,))` with `Scalar = int | Fraction`.
`QInt * QInt` multiplies mantissas and adds precisions; `QInt * Fraction`
rounds `value * numerator / denominator` with banker's rounding; `QInt * int`
multiplies the mantissa. -/
def QInt.mul (self : QInt) (other : Operand) : Except QIntError QInt :=
  checkOperand [PyType.intT, PyType.fracT] "__mul__"
    (fun o =>
      match o with
      | Operand.qint b =>
          Except.ok ⟨self.value * b.value, self.precision + b.precision⟩
      | Operand.frac n d =>
          (ut.banker_division (self.value * n) d).map
            (fun v => ⟨v, self.precision⟩)
      | Operand.int n => Except.ok ⟨self.value * n, self.precision⟩
      | _ => Except.error (QIntError.typeError "__mul__")) other

/-- `QInt.__truediv__`: `@check_operand((Scalar,))`.  `QInt / QInt` divides the
mantissas with banker's rounding and subtracts the precisions; `QInt /
Fraction` rounds `value * denominator / numerator`; `QInt / int` rounds
`value / n`, precision unchanged. -/
def QInt.truediv (self : QInt) (other : Operand) : Except QIntError QInt :=
  checkOperand [PyType.intT, PyType.fracT] "__truediv__"
    (fun o =>
      match o with
      | Operand.qint b =>
          (ut.banker_division self.value b.value).map
            (fun v => ⟨v, self.precision - b.precision⟩)
      | Operand.frac n d =>
          (ut.banker_division (self.value * d) n).map
            (fun v => ⟨v, self.precision⟩)
      | Operand.int n =>
          (ut.banker_division self.value n).map (fun v => ⟨v, self.precision⟩)
      | _ => Except.error (QIntError.typeError "__truediv__")) other

/-- `QInt.div`: `@check_operand()` (only `QInt` operands); pre-scales `self` to
precision `other.precision + targ` (or leaves it alone when `targ` is `None`)
and then applies `__truediv__`. -/
def QInt.div (self : QInt) (other : Operand) (targ : Option Int) :
    Except QIntError QInt :=
  checkOperand [] "div"
    (fun o =>
      match o with
      | Operand.qint b =>
          QInt.truediv (self.scale (targ.map (fun t => b.precision + t)))
            (Operand.qint b)
      | _ => Except.error (QIntError.typeError "div")) other

/-- `QInt.__floordiv__`: `@check_operand((Scalar,))`; Python `//` (floored
division `Int.fdiv`), which raises `ZeroDivisionError` on a zero divisor. -/
def QInt.floordiv (self : QInt) (other : Operand) : Except QIntError QInt :=
  checkOperand [PyType.intT, PyType.fracT] "__floordiv__"
    (fun o =>
      match o with
      | Operand.qint b =>
          if b.value = 0 then Except.error QIntError.zeroDivisionError
          else
            Except.ok ⟨self.value.fdiv b.value, self.precision - b.precision⟩
      | Operand.frac n d =>
          if n = 0 then Except.error QIntError.zeroDivisionError
          else Except.ok ⟨(self.value * d).fdiv n, self.precision⟩
      | Operand.int n =>
          if n = 0 then Except.error QIntError.zeroDivisionError
          else Except.ok ⟨self.value.fdiv n, self.precision⟩
      | _ => Except.error (QIntError.typeError "__floordiv__")) other

/-- `QInt.__mod__`: `@check_operand() @require_same_precision`; Python `%`
(floored modulus `Int.fmod`), which raises `ZeroDivisionError` on a zero
divisor. -/
def QInt.mod (self : QInt) (other : Operand) : Except QIntError QInt :=
  checkOperand [] "__mod__"
    (requireSamePrecision self (fun o =>
      match o with
      | Operand.qint b =>
          if b.value = 0 then Except.error QIntError.zeroDivisionError
          else Except.ok ⟨self.value.fmod b.value, self.precision⟩
      | _ => Except.error (QIntError.typeError "__mod__"))) other

/-- What `QInt.__pow__` can hand back: a well-typed `QInt`; a `QInt`-shaped
tuple whose `value` slot holds a Python `float` (produced by `int ** negative
int`; the float payload is not carried, only the resulting `precision` field
is); or Python's implicit `None` when both `isinstance` branches fall
through. -/
inductive PyPowResult where
  | qint (q : QInt)
  | qintWithFloatValue (precision : Int)
  | pyNone
deriving DecidableEq, Repr

/-- `QInt.__pow__`: no `check_operand` decorator.  A `QInt` exponent raises a
plain `TypeError`; an `int` exponent `e ≥ 0` yields
`QInt(value ** e, precision * e)`; an `int` exponent `e < 0` makes Python's
`**` return a `float` (or raise `ZeroDivisionError` when the mantissa is 0),
so the `value` slot leaves the integer domain; any other exponent type falls
off the end of the function, which returns `None`. -/
def QInt.pow (self : QInt) (other : Operand) : Except QIntError PyPowResult :=
  match other with
  | Operand.qint _ =>
      Except.error
        (QIntError.unsupportedOperation "Cannot exponentiate QInt with QInt")
  | Operand.int e =>
      if 0 ≤ e then
        Except.ok (PyPowResult.qint ⟨self.value ^ e.toNat, self.precision * e⟩)
      else if self.value = 0 then Except.error QIntError.zeroDivisionError
      else Except.ok (PyPowResult.qintWithFloatValue (self.precision * e))
  | _ => Except.ok PyPowResult.pyNone

/-- `QInt.__eq__`: `@check_operand() @require_same_precision`; compares
mantissas. -/
def QInt.eq (self : QInt) (other : Operand) : Except QIntError Bool :=
  checkOperand [] "__eq__"
    (requireSamePrecision self (fun o =>
      match o with
      | Operand.qint b => Except.ok (self.value == b.value)
      | _ => Except.error (QIntError.typeError "__eq__"))) other

/-- `QInt.__ne__`. -/
def QInt.ne (self : QInt) (other : Operand) : Except QIntError Bool :=
  checkOperand [] "__ne__"
    (requireSamePrecision self (fun o =>
      match o with
      | Operand.qint b => Except.ok (self.value != b.value)
      | _ => Except.error (QIntError.typeError "__ne__"))) other

/-- `QInt.__gt__`. -/
def QInt.gt (self : QInt) (other : Operand) : Except QIntError Bool :=
  checkOperand [] "__gt__"
    (requireSamePrecision self (fun o =>
      match o with
      | Operand.qint b => Except.ok (decide (b.value < self.value))
      | _ => Except.error (QIntError.typeError "__gt__"))) other

/-- `QInt.__ge__`. -/
def QInt.ge (self : QInt) (other : Operand) : Except QIntError Bool :=
  checkOperand [] "__ge__"
    (requireSamePrecision self (fun o =>
      match o with
      | Operand.qint b => Except.ok (decide (b.value ≤ self.value))
      | _ => Except.error (QIntError.typeError "__ge__"))) other

/-- `QInt.__lt__`. -/
def QInt.lt (self : QInt) (other : Operand) : Except QIntError Bool :=
  checkOperand [] "__lt__"
    (requireSamePrecision self (fun o =>
      match o with
      | Operand.qint b => Except.ok (decide (self.value < b.value))
      | _ => Except.error (QIntError.typeError "__lt__"))) other

/-- `QInt.__le__`. -/
def QInt.le (self : QInt) (other : Operand) : Except QIntError Bool :=
  checkOperand [] "__le__"
    (requireSamePrecision self (fun o =>
      match o with
      | Operand.qint b => Except.ok (decide (self.value ≤ b.value))
      | _ => Except.error (QIntError.typeError "__le__"))) other

/-- `q` is the result of rounding the rational `num / denom` half to even:
either `|num/denom - q| < 1/2`, or `|num/denom - q| = 1/2` and `q` is even.
Multiplying through by `2 * |denom|` turns these conditions into
`|2*num - 2*denom*q| < |denom|` and `|2*num - 2*denom*q| = |denom| ∧ q even`,
stated here with `Int.natAbs`.  This is the specification-side meaning of
"integer quotient rounded half-to-even"; for `denom ≠ 0` at most one integer
satisfies it. -/
def is_round_half_even (num denom q : Int) : Prop :=
  (2 * num - 2 * denom * q).natAbs < denom.natAbs ∨
    ((2 * num - 2 * denom * q).natAbs = denom.natAbs ∧ q % 2 = 0)

instance (num denom q : Int) : Decidable (is_round_half_even num denom q) := by
  unfold is_round_half_even
  infer_instance

/-- Specification-side value for claim C2: the banker's-rounded quotient of
`a / b` computed at target precision `targ`, i.e. the half-to-even rounding of
the rational `10^targ * (a.value / 10^a.precision) / (b.value /
10^b.precision)`, written as the rounding of
`(a.value * 10^(b.precision + targ)) / (b.value * 10^a.precision)`
(faithful for non-negative precisions). -/
def spec_quotient_at (a b : QInt) (targ : Int) : Int :=
  ut.bankers_round (a.value * 10 ^ (b.precision + targ).toNat)
    (b.value * 10 ^ a.precision.toNat)

/-! ## Helper lemmas -/

/-- Floored division is invariant under negating both arguments. -/
theorem Int.fdiv_neg_neg (a b : Int) : (-a).fdiv (-b) = a.fdiv b := by
  rcases eq_or_ne b 0 with rfl | hb
  · simp
  · rcases a with (_ | m) | m <;> rcases b with (_ | n) | n <;>
      first
        | rfl
        | exact absurd rfl hb

/-- Floored modulus negates when both arguments are negated. -/
theorem Int.fmod_neg_neg (a b : Int) : (-a).fmod (-b) = -(a.fmod b) := by
  rw [Int.fmod_def, Int.fmod_def, Int.fdiv_neg_neg]
  ring

/-- Range of the floored modulus, for either sign of the modulus. -/
theorem Int.fmod_range (a : Int) {b : Int} (hb : b ≠ 0) :
    (0 < b ∧ 0 ≤ a.fmod b ∧ a.fmod b < b) ∨
      (b < 0 ∧ b < a.fmod b ∧ a.fmod b ≤ 0) := by
  rcases hb.lt_or_lt with hneg | hpos
  · right
    have h3 : (-a).fmod (-b) = -(a.fmod b) := Int.fmod_neg_neg a b
    have h1 : 0 ≤ (-a).fmod (-b) := Int.fmod_nonneg' _ (by omega)
    have h2 : (-a).fmod (-b) < -b := Int.fmod_lt_of_pos _ (by omega)
    exact ⟨hneg, by omega, by omega⟩
  · exact Or.inl ⟨hpos, Int.fmod_nonneg' _ hpos, Int.fmod_lt_of_pos _ hpos⟩

/-- `ut.bankers_round` rounds half to even. -/
theorem bankers_round_is_rhe (n d : Int) (hd : d ≠ 0) :
    is_round_half_even n d (ut.bankers_round n d) := by
  unfold is_round_half_even
  simp only [ut.bankers_round]
  have hid := Int.fdiv_add_fmod (2 * n) (2 * d)
  have hrange := Int.fmod_range (2 * n) (b := 2 * d) (by omega)
  set q := (2 * n).fdiv (2 * d) with hq
  set m := (2 * n).fmod (2 * d) with hm
  have hkey : 2 * n - 2 * d * q = m := by linarith
  have hkey1 : 2 * n - 2 * d * (q + 1) = m - 2 * d := by linarith
  split_ifs with h1 h2 h3
  · right
    rw [hkey]
    exact ⟨h1, h2⟩
  · right
    rw [hkey1]
    constructor
    · omega
    · omega
  · left
    rw [hkey]
    exact h3
  · left
    rw [hkey1]
    omega

/-- At most one integer is the half-to-even rounding of `n / d`. -/
theorem rhe_unique {n d q q' : Int} (hd : d ≠ 0)
    (h : is_round_half_even n d q) (h' : is_round_half_even n d q') :
    q = q' := by
  unfold is_round_half_even at h h'
  by_contra hne
  have hk : (2 * n - 2 * d * q) - (2 * n - 2 * d * q') = 2 * d * (q' - q) := by
    ring
  have habs : ((2 * d) * (q' - q)).natAbs
      = 2 * d.natAbs * (q' - q).natAbs := by
    rw [Int.natAbs_mul, Int.natAbs_mul]
    norm_num
  have hone : (q' - q).natAbs = 1 := by
    have hle : ((2 * d) * (q' - q)).natAbs ≤ 2 * d.natAbs := by
      rw [← hk]
      omega
    rw [habs] at hle
    have hle1 : 2 * d.natAbs * (q' - q).natAbs ≤ 2 * d.natAbs * 1 := by
      rw [mul_one]
      exact hle
    have hk1 : (q' - q).natAbs ≤ 1 := Nat.le_of_mul_le_mul_left hle1 (by omega)
    omega
  have he : q' - q = 1 ∨ q' - q = -1 := by omega
  rcases he with he | he <;> rw [he] at hk <;> omega

/-- Half-to-even rounding is invariant under scaling numerator and denominator
by a positive factor. -/
theorem rhe_scale {t n d q : Int} (ht : 0 < t)
    (h : is_round_half_even n d q) :
    is_round_half_even (t * n) (t * d) q := by
  unfold is_round_half_even at h ⊢
  have e1 : 2 * (t * n) - 2 * (t * d) * q = t * (2 * n - 2 * d * q) := by ring
  rw [e1, Int.natAbs_mul, Int.natAbs_mul]
  have ht' : 0 < t.natAbs := by omega
  rcases h with h | ⟨h1, h2⟩
  · exact Or.inl ((mul_lt_mul_left ht').mpr h)
  · exact Or.inr ⟨by rw [h1], h2⟩

/-! ## Claim theorems -/

/-- C1: for every integer numerator `n` and nonzero denominator `d`, the
engine's banker's division returns the integer quotient of `n/d` rounded half
to even — it succeeds with `ut.bankers_round n d`, that value satisfies the
round-half-to-even specification, and it is the only integer that does. -/
theorem banker_division_rounds_half_to_even (n d : Int) (hd : d ≠ 0) :
    ut.banker_division n d = Except.ok (ut.bankers_round n d) ∧
    is_round_half_even n d (ut.bankers_round n d) ∧
    (∀ q' : Int, is_round_half_even n d q' → q' = ut.bankers_round n d) := by
  refine ⟨by simp [ut.banker_division, hd], bankers_round_is_rhe n d hd, ?_⟩
  intro q' hq'
  exact rhe_unique hd hq' (bankers_round_is_rhe n d hd)

/-- Witness for C1 at the claim's own examples: `bankersDivide(5, 2) = 2`,
`bankersDivide(25, 2) = 12`, `bankersDivide(-5, 2) = -2`. -/
theorem banker_division_rounds_half_to_even_witness :
    (ut.banker_division 5 2 = Except.ok (ut.bankers_round 5 2) ∧
      is_round_half_even 5 2 (ut.bankers_round 5 2) ∧
      (∀ q' : Int, is_round_half_even 5 2 q' → q' = ut.bankers_round 5 2)) ∧
    ut.bankers_round 5 2 = 2 ∧ ut.bankers_round 25 2 = 12 ∧
    ut.bankers_round (-5) 2 = -2 :=
  ⟨banker_division_rounds_half_to_even 5 2 (by decide), by decide, by decide,
    by decide⟩

/-- C4: multiplying two QInts multiplies the mantissas and adds the
precisions, with no rounding and no failure. -/
theorem mul_precision_law (a b : QInt) :
    QInt.mul a (Operand.qint b)
      = Except.ok ⟨a.value * b.value, a.precision + b.precision⟩ := rfl

/-- C5: every binary operation that requires equal precision (`__add__`,
`__sub__`, `__mod__` and the six comparisons) fails with
`QIntPrecisionError(p1, p2)` when the two precisions differ. -/
theorem equal_precision_ops_reject_mismatch (a b : QInt)
    (h : a.precision ≠ b.precision) :
    QInt.add a (Operand.qint b)
      = Except.error (QIntError.precisionError a.precision b.precision) ∧
    QInt.sub a (Operand.qint b)
      = Except.error (QIntError.precisionError a.precision b.precision) ∧
    QInt.mod a (Operand.qint b)
      = Except.error (QIntError.precisionError a.precision b.precision) ∧
    QInt.eq a (Operand.qint b)
      = Except.error (QIntError.precisionError a.precision b.precision) ∧
    QInt.ne a (Operand.qint b)
      = Except.error (QIntError.precisionError a.precision b.precision) ∧
    QInt.lt a (Operand.qint b)
      = Except.error (QIntError.precisionError a.precision b.precision) ∧
    QInt.le a (Operand.qint b)
      = Except.error (QIntError.precisionError a.precision b.precision) ∧
    QInt.gt a (Operand.qint b)
      = Except.error (QIntError.precisionError a.precision b.precision) ∧
    QInt.ge a (Operand.qint b)
      = Except.error (QIntError.precisionError a.precision b.precision) := by
  refine ⟨?_, ?_, ?_, ?_, ?_, ?_, ?_, ?_, ?_⟩ <;>
    simp [QInt.add, QInt.sub, QInt.mod, QInt.eq, QInt.ne, QInt.lt, QInt.le,
      QInt.gt, QInt.ge, checkOperand, requireSamePrecision, Operand.typeOf, h]

/-- Witness for C5 at the claim's example:
`QInt(100, 2) + QInt(100, 3)` fails with `PrecisionMismatch(2, 3)`
(and likewise for the other equal-precision operations). -/
theorem equal_precision_ops_reject_mismatch_witness :
    QInt.add ⟨100, 2⟩ (Operand.qint ⟨100, 3⟩)
      = Except.error (QIntError.precisionError 2 3) ∧
    QInt.sub ⟨100, 2⟩ (Operand.qint ⟨100, 3⟩)
      = Except.error (QIntError.precisionError 2 3) ∧
    QInt.mod ⟨100, 2⟩ (Operand.qint ⟨100, 3⟩)
      = Except.error (QIntError.precisionError 2 3) ∧
    QInt.eq ⟨100, 2⟩ (Operand.qint ⟨100, 3⟩)
      = Except.error (QIntError.precisionError 2 3) ∧
    QInt.ne ⟨100, 2⟩ (Operand.qint ⟨100, 3⟩)
      = Except.error (QIntError.precisionError 2 3) ∧
    QInt.lt ⟨100, 2⟩ (Operand.qint ⟨100, 3⟩)
      = Except.error (QIntError.precisionError 2 3) ∧
    QInt.le ⟨100, 2⟩ (Operand.qint ⟨100, 3⟩)
      = Except.error (QIntError.precisionError 2 3) ∧
    QInt.gt ⟨100, 2⟩ (Operand.qint ⟨100, 3⟩)
      = Except.error (QIntError.precisionError 2 3) ∧
    QInt.ge ⟨100, 2⟩ (Operand.qint ⟨100, 3⟩)
      = Except.error (QIntError.precisionError 2 3) :=
  equal_precision_ops_reject_mismatch ⟨100, 2⟩ ⟨100, 3⟩ (by decide)

/-- C6 counterexample: the claim is false for the modulo operation.  A scalar
zero divisor is rejected by `__mod__`'s operand check with `QIntTypeError`
(`InvalidOperand`), not `DivisionByZero`; and a zero-mantissa QInt divisor at
a different precision fails with `QIntPrecisionError`, not `DivisionByZero`. -/
theorem zero_divisor_counterexample :
    QInt.mod ⟨100, 2⟩ (Operand.int 0)
      = Except.error (QIntError.typeError "__mod__") ∧
    QInt.mod ⟨100, 2⟩ (Operand.qint ⟨0, 3⟩)
      = Except.error (QIntError.precisionError 2 3) := ⟨rfl, rfl⟩

/-- C6 amended: true division and floor division fail with
`ZeroDivisionError` (`DivisionByZero`) for every zero divisor — a
zero-mantissa QInt at any precision, the scalar integer zero, and a rational
with zero numerator — and modulo fails with `ZeroDivisionError` for a
zero-mantissa QInt divisor of equal precision; the first conjunct at
`a = ⟨100, 2⟩`, `p = 2` is the claim's example
`QInt(100, 2) / QInt(0, 2)`. -/
theorem zero_divisor_amended (a : QInt) (p d : Int) :
    QInt.truediv a (Operand.qint ⟨0, p⟩)
      = Except.error QIntError.zeroDivisionError ∧
    QInt.truediv a (Operand.int 0)
      = Except.error QIntError.zeroDivisionError ∧
    QInt.truediv a (Operand.frac 0 d)
      = Except.error QIntError.zeroDivisionError ∧
    QInt.floordiv a (Operand.qint ⟨0, p⟩)
      = Except.error QIntError.zeroDivisionError ∧
    QInt.floordiv a (Operand.int 0)
      = Except.error QIntError.zeroDivisionError ∧
    QInt.floordiv a (Operand.frac 0 d)
      = Except.error QIntError.zeroDivisionError ∧
    QInt.mod a (Operand.qint ⟨0, a.precision⟩)
      = Except.error QIntError.zeroDivisionError := by
  refine ⟨?_, ?_, ?_, ?_, ?_, ?_, ?_⟩ <;>
    simp [QInt.truediv, QInt.floordiv, QInt.mod, checkOperand,
      requireSamePrecision, ut.banker_division, Operand.typeOf, Except.map]

/-- C8 counterexample: the claim is false for `__pow__`, which has no operand
check: a float exponent produces no error at all — the function falls
through and returns `None`. -/
theorem invalid_operand_counterexample :
    QInt.pow ⟨1, 0⟩ Operand.float = Except.ok PyPowResult.pyNone ∧
    QInt.pow ⟨1, 0⟩ Operand.float
      ≠ Except.error (QIntError.typeError "__pow__") := ⟨rfl, by decide⟩

/-- C8 amended: every binary operation guarded by the operand check — the
arithmetic operators, the `div` method and the comparisons — fails with
`QIntTypeError` (`InvalidOperand`) carrying the operation name for every
operand whose type is not among that operation's accepted types: `__add__`
and `__sub__` accept only `QInt` and `int`; `__mul__`, `__truediv__` and
`__floordiv__` accept only `QInt`, `int` and `Fraction`; `__mod__`, the
`div` method and the six comparisons accept only `QInt`.  Each operation is
paired below with every rejected operand kind; `__pow__` alone is unguarded
and returns `None` on a float. -/
theorem invalid_operand_amended (a : QInt) (n d k : Int) :
    QInt.add a (Operand.frac n d)
      = Except.error (QIntError.typeError "__add__") ∧
    QInt.add a Operand.float
      = Except.error (QIntError.typeError "__add__") ∧
    QInt.add a Operand.other
      = Except.error (QIntError.typeError "__add__") ∧
    QInt.sub a (Operand.frac n d)
      = Except.error (QIntError.typeError "__sub__") ∧
    QInt.sub a Operand.float
      = Except.error (QIntError.typeError "__sub__") ∧
    QInt.sub a Operand.other
      = Except.error (QIntError.typeError "__sub__") ∧
    QInt.mul a Operand.float
      = Except.error (QIntError.typeError "__mul__") ∧
    QInt.mul a Operand.other
      = Except.error (QIntError.typeError "__mul__") ∧
    QInt.truediv a Operand.float
      = Except.error (QIntError.typeError "__truediv__") ∧
    QInt.truediv a Operand.other
      = Except.error (QIntError.typeError "__truediv__") ∧
    QInt.floordiv a Operand.float
      = Except.error (QIntError.typeError "__floordiv__") ∧
    QInt.floordiv a Operand.other
      = Except.error (QIntError.typeError "__floordiv__") ∧
    QInt.mod a (Operand.int k)
      = Except.error (QIntError.typeError "__mod__") ∧
    QInt.mod a (Operand.frac n d)
      = Except.error (QIntError.typeError "__mod__") ∧
    QInt.mod a Operand.float
      = Except.error (QIntError.typeError "__mod__") ∧
    QInt.mod a Operand.other
      = Except.error (QIntError.typeError "__mod__") ∧
    QInt.div a (Operand.int k) none
      = Except.error (QIntError.typeError "div") ∧
    QInt.div a (Operand.frac n d) none
      = Except.error (QIntError.typeError "div") ∧
    QInt.div a Operand.float none
      = Except.error (QIntError.typeError "div") ∧
    QInt.div a Operand.other none
      = Except.error (QIntError.typeError "div") ∧
    QInt.eq a (Operand.int k)
      = Except.error (QIntError.typeError "__eq__") ∧
    QInt.eq a (Operand.frac n d)
      = Except.error (QIntError.typeError "__eq__") ∧
    QInt.eq a Operand.float
      = Except.error (QIntError.typeError "__eq__") ∧
    QInt.eq a Operand.other
      = Except.error (QIntError.typeError "__eq__") ∧
    QInt.ne a (Operand.int k)
      = Except.error (QIntError.typeError "__ne__") ∧
    QInt.ne a (Operand.frac n d)
      = Except.error (QIntError.typeError "__ne__") ∧
    QInt.ne a Operand.float
      = Except.error (QIntError.typeError "__ne__") ∧
    QInt.ne a Operand.other
      = Except.error (QIntError.typeError "__ne__") ∧
    QInt.lt a (Operand.int k)
      = Except.error (QIntError.typeError "__lt__") ∧
    QInt.lt a (Operand.frac n d)
      = Except.error (QIntError.typeError "__lt__") ∧
    QInt.lt a Operand.float
      = Except.error (QIntError.typeError "__lt__") ∧
    QInt.lt a Operand.other
      = Except.error (QIntError.typeError "__lt__") ∧
    QInt.le a (Operand.int k)
      = Except.error (QIntError.typeError "__le__") ∧
    QInt.le a (Operand.frac n d)
      = Except.error (QIntError.typeError "__le__") ∧
    QInt.le a Operand.float
      = Except.error (QIntError.typeError "__le__") ∧
    QInt.le a Operand.other
      = Except.error (QIntError.typeError "__le__") ∧
    QInt.gt a (Operand.int k)
      = Except.error (QIntError.typeError "__gt__") ∧
    QInt.gt a (Operand.frac n d)
      = Except.error (QIntError.typeError "__gt__") ∧
    QInt.gt a Operand.float
      = Except.error (QIntError.typeError "__gt__") ∧
    QInt.gt a Operand.other
      = Except.error (QIntError.typeError "__gt__") ∧
    QInt.ge a (Operand.int k)
      = Except.error (QIntError.typeError "__ge__") ∧
    QInt.ge a (Operand.frac n d)
      = Except.error (QIntError.typeError "__ge__") ∧
    QInt.ge a Operand.float
      = Except.error (QIntError.typeError "__ge__") ∧
    QInt.ge a Operand.other
      = Except.error (QIntError.typeError "__ge__") := by
  and_intros <;> rfl

/-- C10: an exponent that is neither an `int` nor a `QInt` (a float, a
`Fraction`, or any other type) makes `__pow__` fall through both
`isinstance` branches: it raises nothing and returns Python's `None`, so the
caller receives a non-QInt result from a public arithmetic operator. -/
theorem pow_falls_through_returns_none (a : QInt) (n d : Int) :
    QInt.pow a Operand.float = Except.ok PyPowResult.pyNone ∧
    QInt.pow a (Operand.frac n d) = Except.ok PyPowResult.pyNone ∧
    QInt.pow a Operand.other = Except.ok PyPowResult.pyNone := ⟨rfl, rfl, rfl⟩

/-- C7: `scale` returns `self` unchanged when the target precision is
unspecified or equal to the current one, and scaling up by `k > 0` multiplies
the mantissa by `10^k` exactly, introducing no rounding. -/
theorem scale_identity_and_exact_up (a : QInt) (k : Nat) (hk : 0 < k) :
    QInt.scale a none = a ∧
    QInt.scale a (some a.precision) = a ∧
    QInt.scale a (some (a.precision + (k : Int)))
      = ⟨a.value * 10 ^ k, a.precision + (k : Int)⟩ := by
  refine ⟨rfl, by simp [QInt.scale], ?_⟩
  have h1 : a.precision + (k : Int) ≠ a.precision := by omega
  have h2 : a.precision + (k : Int) - a.precision = (k : Int) := by ring
  simp only [QInt.scale, if_neg h1, h2, ut.scale, Int.natCast_nonneg, if_pos,
    Int.toNat_natCast]

/-- Witness for C7 at `a = QInt(7, 2)`, `k = 3`:
`QInt(7, 2).scale(5) = QInt(7000, 5)`. -/
theorem scale_identity_and_exact_up_witness :
    QInt.scale ⟨7, 2⟩ none = ⟨7, 2⟩ ∧
    QInt.scale ⟨7, 2⟩ (some 2) = ⟨7, 2⟩ ∧
    QInt.scale ⟨7, 2⟩ (some (2 + (3 : Int)))
      = ⟨7 * 10 ^ 3, 2 + (3 : Int)⟩ :=
  scale_identity_and_exact_up ⟨7, 2⟩ 3 (by decide)

/-- C9 counterexample: exponentiating a QInt by a QInt raises a plain
`TypeError` ("Cannot exponentiate QInt with QInt"), i.e. the spec's
`UnsupportedOperation`, not `QIntTypeError` (`InvalidOperand`); and a
negative integer exponent makes Python's `**` produce a `float`-valued
result, not an integer mantissa `a.mantissa^e`. -/
theorem pow_counterexample :
    QInt.pow ⟨2, 1⟩ (Operand.qint ⟨2, 1⟩)
      = Except.error
          (QIntError.unsupportedOperation "Cannot exponentiate QInt with QInt") ∧
    QInt.pow ⟨2, 1⟩ (Operand.qint ⟨2, 1⟩)
      ≠ Except.error (QIntError.typeError "__pow__") ∧
    QInt.pow ⟨3, 0⟩ (Operand.int (-1))
      = Except.ok (PyPowResult.qintWithFloatValue 0) := by
  refine ⟨rfl, by decide, by decide⟩

/-- C9 amended: for every non-negative plain integer exponent `e`, `a ** e`
is a QInt with mantissa `a.mantissa ^ e` and precision `a.precision * e`
(for negative `e` the value slot leaves the integer domain, becoming a
Python float); exponentiating by another QInt fails with the plain
`TypeError` `UnsupportedOperation`, not with `InvalidOperand`. -/
theorem pow_amended (a : QInt) (e : Int) (b : QInt) (he : 0 ≤ e) :
    QInt.pow a (Operand.int e)
      = Except.ok (PyPowResult.qint ⟨a.value ^ e.toNat, a.precision * e⟩) ∧
    QInt.pow a (Operand.qint b)
      = Except.error
          (QIntError.unsupportedOperation "Cannot exponentiate QInt with QInt") :=
  ⟨by simp [QInt.pow, he], rfl⟩

/-- Witness for C9 amended at `a = QInt(2, 1)`, `e = 3`, `b = QInt(5, 2)`. -/
theorem pow_amended_witness :
    QInt.pow ⟨2, 1⟩ (Operand.int 3)
      = Except.ok (PyPowResult.qint ⟨2 ^ (3 : Int).toNat, 1 * 3⟩) ∧
    QInt.pow ⟨2, 1⟩ (Operand.qint ⟨5, 2⟩)
      = Except.error
          (QIntError.unsupportedOperation "Cannot exponentiate QInt with QInt") :=
  pow_amended ⟨2, 1⟩ 3 ⟨5, 2⟩ (by decide)

/-- C3 counterexample: dividing a QInt by a QInt of higher precision yields a
result whose precision field is negative: `QInt(100, 2) / QInt(1000, 3)`
succeeds with `QInt(0, -1)`, violating the claimed invariant even though both
operands have non-negative precision. -/
theorem precision_nonneg_counterexample :
    QInt.truediv ⟨100, 2⟩ (Operand.qint ⟨1000, 3⟩)
      = Except.ok ⟨0, -1⟩ ∧ (-1 : Int) < 0 := by decide

/-- C3 amended: with operands of non-negative precision, addition,
subtraction, multiplication and modulo always produce results of non-negative
precision; true division and floor division do so exactly when the divisor's
precision does not exceed the dividend's (the result precision is `p1 - p2`);
and exponentiation does so for non-negative integer exponents (the result
precision is `p * e`). -/
theorem precision_nonneg_amended (a b r : QInt) (e : Int)
    (ha : 0 ≤ a.precision) (hb : 0 ≤ b.precision) :
    (QInt.add a (Operand.qint b) = Except.ok r → 0 ≤ r.precision) ∧
    (QInt.sub a (Operand.qint b) = Except.ok r → 0 ≤ r.precision) ∧
    (QInt.mul a (Operand.qint b) = Except.ok r → 0 ≤ r.precision) ∧
    (QInt.mod a (Operand.qint b) = Except.ok r → 0 ≤ r.precision) ∧
    (b.precision ≤ a.precision →
      QInt.truediv a (Operand.qint b) = Except.ok r → 0 ≤ r.precision) ∧
    (b.precision ≤ a.precision →
      QInt.floordiv a (Operand.qint b) = Except.ok r → 0 ≤ r.precision) ∧
    (0 ≤ e →
      QInt.pow a (Operand.int e) = Except.ok (PyPowResult.qint r) →
        0 ≤ r.precision) := by
  refine ⟨?_, ?_, ?_, ?_, ?_, ?_, ?_⟩
  · intro h
    simp only [QInt.add, checkOperand, requireSamePrecision, Operand.typeOf,
      eq_self_iff_true, true_or, if_true] at h
    split at h
    · exact Except.noConfusion h
    · rw [Except.ok.injEq] at h
      subst h
      exact ha
  · intro h
    simp only [QInt.sub, checkOperand, requireSamePrecision, Operand.typeOf,
      eq_self_iff_true, true_or, if_true] at h
    split at h
    · exact Except.noConfusion h
    · rw [Except.ok.injEq] at h
      subst h
      exact ha
  · intro h
    simp only [QInt.mul, checkOperand, Operand.typeOf,
      eq_self_iff_true, true_or, if_true] at h
    rw [Except.ok.injEq] at h
    subst h
    exact add_nonneg ha hb
  · intro h
    simp only [QInt.mod, checkOperand, requireSamePrecision, Operand.typeOf,
      eq_self_iff_true, true_or, if_true] at h
    split at h
    · exact Except.noConfusion h
    · split at h
      · exact Except.noConfusion h
      · rw [Except.ok.injEq] at h
        subst h
        exact ha
  · intro hba h
    simp only [QInt.truediv, checkOperand, Operand.typeOf,
      eq_self_iff_true, true_or, if_true, ut.banker_division] at h
    split at h
    · simp only [Except.map] at h
      exact Except.noConfusion h
    · simp only [Except.map] at h
      rw [Except.ok.injEq] at h
      subst h
      show 0 ≤ a.precision - b.precision
      omega
  · intro hba h
    simp only [QInt.floordiv, checkOperand, Operand.typeOf,
      eq_self_iff_true, true_or, if_true] at h
    split at h
    · exact Except.noConfusion h
    · rw [Except.ok.injEq] at h
      subst h
      show 0 ≤ a.precision - b.precision
      omega
  · intro he h
    simp only [QInt.pow, if_pos he] at h
    rw [Except.ok.injEq, PyPowResult.qint.injEq] at h
    subst h
    exact mul_nonneg ha he

/-- Witness for C3 amended at `a = QInt(1, 1)`, `b = QInt(2, 1)`,
`r = QInt(0, 0)`, `e = 2`, discharging the non-negative-precision
hypotheses. -/
theorem precision_nonneg_amended_witness :
    (QInt.add ⟨1, 1⟩ (Operand.qint ⟨2, 1⟩) = Except.ok ⟨0, 0⟩ →
      0 ≤ (⟨0, 0⟩ : QInt).precision) ∧
    (QInt.sub ⟨1, 1⟩ (Operand.qint ⟨2, 1⟩) = Except.ok ⟨0, 0⟩ →
      0 ≤ (⟨0, 0⟩ : QInt).precision) ∧
    (QInt.mul ⟨1, 1⟩ (Operand.qint ⟨2, 1⟩) = Except.ok ⟨0, 0⟩ →
      0 ≤ (⟨0, 0⟩ : QInt).precision) ∧
    (QInt.mod ⟨1, 1⟩ (Operand.qint ⟨2, 1⟩) = Except.ok ⟨0, 0⟩ →
      0 ≤ (⟨0, 0⟩ : QInt).precision) ∧
    ((⟨2, 1⟩ : QInt).precision ≤ (⟨1, 1⟩ : QInt).precision →
      QInt.truediv ⟨1, 1⟩ (Operand.qint ⟨2, 1⟩) = Except.ok ⟨0, 0⟩ →
      0 ≤ (⟨0, 0⟩ : QInt).precision) ∧
    ((⟨2, 1⟩ : QInt).precision ≤ (⟨1, 1⟩ : QInt).precision →
      QInt.floordiv ⟨1, 1⟩ (Operand.qint ⟨2, 1⟩) = Except.ok ⟨0, 0⟩ →
      0 ≤ (⟨0, 0⟩ : QInt).precision) ∧
    (0 ≤ (2 : Int) →
      QInt.pow ⟨1, 1⟩ (Operand.int 2) = Except.ok (PyPowResult.qint ⟨0, 0⟩) →
      0 ≤ (⟨0, 0⟩ : QInt).precision) :=
  precision_nonneg_amended ⟨1, 1⟩ ⟨2, 1⟩ ⟨0, 0⟩ 2 (by decide) (by decide)

/-- C2 counterexample: when the target precision makes the pre-scaling a
down-scaling (`b.precision + targ < a.precision`), the pre-scale itself
rounds and the result is a twice-rounded value that can differ from the
banker's-rounded quotient of `a/b` at the target precision:
`QInt(1001, 3).div(QInt(2, 0), 0)` returns `QInt(0, 0)`, while the quotient
`0.5005` rounded half-to-even at precision 0 is `1`. -/
theorem div_prescale_counterexample :
    QInt.div ⟨1001, 3⟩ (Operand.qint ⟨2, 0⟩) (some 0) = Except.ok ⟨0, 0⟩ ∧
    spec_quotient_at ⟨1001, 3⟩ ⟨2, 0⟩ 0 = 1 ∧ (0 : Int) ≠ 1 := by decide

/-- C2 amended: provided the pre-scaling is an up-scaling
(`a.precision ≤ b.precision + targ`, which holds in particular whenever
`targ ≥ a.precision` and precisions are non-negative), `a.div(b, targ)`
rescales `a` to precision `b.precision + targ` exactly and divides, so the
result has precision `targ` and its mantissa is the banker's-rounded
quotient of `a/b` at the target precision.  When `b.precision + targ <
a.precision` the pre-scale itself rounds, and the doubly rounded result can
differ from that quotient. -/
theorem div_prescale_amended (a b : QInt) (targ : Int) (ha : 0 ≤ a.precision)
    (hle : a.precision ≤ b.precision + targ) (hb : b.value ≠ 0) :
    QInt.div a (Operand.qint b) (some targ)
      = Except.ok ⟨ut.bankers_round
          (a.value * 10 ^ (b.precision + targ - a.precision).toNat) b.value,
          targ⟩ ∧
    is_round_half_even (a.value * 10 ^ (b.precision + targ).toNat)
      (b.value * 10 ^ a.precision.toNat)
      (ut.bankers_round
        (a.value * 10 ^ (b.precision + targ - a.precision).toNat) b.value) := by
  have hscale : QInt.scale a (some (b.precision + targ))
      = ⟨a.value * 10 ^ (b.precision + targ - a.precision).toNat,
          b.precision + targ⟩ := by
    by_cases hcase : b.precision + targ = a.precision
    · rw [hcase]
      simp [QInt.scale]
    · have hd : 0 ≤ b.precision + targ - a.precision := by omega
      simp only [QInt.scale, if_neg hcase, ut.scale, if_pos hd]
  constructor
  · simp only [QInt.div, checkOperand, Operand.typeOf, eq_self_iff_true,
      true_or, if_true, Option.map_some']
    rw [hscale]
    simp only [QInt.truediv, checkOperand, Operand.typeOf, eq_self_iff_true,
      true_or, if_true, ut.banker_division, if_neg hb, Except.map]
    have hp : b.precision + targ - b.precision = targ := by ring
    rw [hp]
  · have h1 := bankers_round_is_rhe
      (a.value * 10 ^ (b.precision + targ - a.precision).toNat) b.value hb
    have ht : (0 : Int) < 10 ^ a.precision.toNat := by positivity
    have h2 := rhe_scale ht h1
    have e1 : (10 : Int) ^ a.precision.toNat
        * (a.value * 10 ^ (b.precision + targ - a.precision).toNat)
        = a.value * 10 ^ (b.precision + targ).toNat := by
      have hexp : a.precision.toNat + (b.precision + targ - a.precision).toNat
          = (b.precision + targ).toNat := by omega
      rw [← hexp, pow_add]
      ring
    have e2 : (10 : Int) ^ a.precision.toNat * b.value
        = b.value * 10 ^ a.precision.toNat := by ring
    rw [e1, e2] at h2
    exact h2

/-- Witness for C2 amended at the claim's example
`QInt(100, 2).div(QInt(300, 2), 4)`, which equals `QInt(3333, 4)`. -/
theorem div_prescale_amended_witness :
    (QInt.div ⟨100, 2⟩ (Operand.qint ⟨300, 2⟩) (some 4)
      = Except.ok ⟨ut.bankers_round
          ((100 : Int) * 10 ^ (((2 : Int) + 4 - 2).toNat)) 300, 4⟩ ∧
    is_round_half_even ((100 : Int) * 10 ^ (((2 : Int) + 4).toNat))
      ((300 : Int) * 10 ^ ((2 : Int).toNat))
      (ut.bankers_round
        ((100 : Int) * 10 ^ (((2 : Int) + 4 - 2).toNat)) 300)) ∧
    QInt.div ⟨100, 2⟩ (Operand.qint ⟨300, 2⟩) (some 4)
      = Except.ok ⟨3333, 4⟩ :=
  ⟨div_prescale_amended ⟨100, 2⟩ ⟨300, 2⟩ 4 (by decide) (by decide)
      (by decide),
    by decide⟩
